import Mathlib

/-!
Shallow embedding of the preemptive-threads micro-kernel (Rust sources under
`src/`): the scheduler (`sched/rr.rs`), time-slice accounting (`time/mod.rs`,
`time/tick.rs`), thread objects and references (`thread_new/mod.rs`), the
kernel facade (`kernel.rs`) and the AArch64 timer helpers (`arch/aarch64.rs`).
Machine integers are modelled as `Nat` with explicit truncation where the
source can wrap; fallible operations return `Option`/`Except`; the event
order of the control paths that the temporal claims talk about is modelled
as explicit event traces.
-/

/-- usize / u64 width on the aarch64 target. -/
def U64_MOD : Nat := 2 ^ 64

/-- `ThreadId::new` (thread_new/mod.rs:44-51): the `u64` argument is cast to
`usize` (64-bit on the target, hence value-preserving for inputs below
`2^64`); an input of zero silently becomes the id 1, any other value is kept.
The result is the value stored in the `NonZeroUsize`. -/
def ThreadId.new (id : Nat) : Nat :=
  let id_usize := id % U64_MOD
  if id_usize = 0 then 1 else id_usize

/-- Priority classes of the round-robin scheduler (sched/rr.rs:415-421). -/
inductive PriorityLevel where
  | Idle
  | Low
  | Normal
  | High
  deriving DecidableEq, Repr

/-- `RoundRobinScheduler::priority_level` (sched/rr.rs:71-78): bucket an
8-bit priority into a class; `0` is Idle, `1..=63` Low, `64..=191` Normal,
`192..=255` High. -/
def priority_level (priority : Nat) : PriorityLevel :=
  if priority = 0 then .Idle
  else if priority ≤ 63 then .Low
  else if priority ≤ 191 then .Normal
  else .High

/-- `DEFAULT_QUANTUM_NS` (time/mod.rs:218): 1 ms in nanoseconds. -/
def DEFAULT_QUANTUM_NS : Nat := 1000000

/-- `TimeSlice::calculate_quantum` (time/mod.rs:62-70 and the identical copy
in time/tick.rs:187-195): `0..=63 → base/2`, `64..=127 → base`,
`128..=191 → base*2`, `192..=255 → base*4` with `base = DEFAULT_QUANTUM_NS`. -/
def calculate_quantum (priority : Nat) : Nat :=
  let base_quantum := DEFAULT_QUANTUM_NS
  if priority ≤ 63 then base_quantum / 2
  else if priority ≤ 127 then base_quantum
  else if priority ≤ 191 then base_quantum * 2
  else base_quantum * 4

/-- The quantum table claimed by the spec sentence behind C5, written from the
spec's words: 0.5 ms for Low (1-63), 1 ms for Normal (64-191), 2 ms for High
(192-255); priority 0 (Idle) is left in the 0.5 ms bucket as the spec gives it
no quantum of its own. -/
def quantum_spec_claimed (priority : Nat) : Nat :=
  if priority ≤ 63 then 500000
  else if priority ≤ 191 then 1000000
  else 2000000

/-- The quantum table the code actually implements, written as plain
nanosecond figures (the amended C5): 0-63 → 0.5 ms, 64-127 → 1 ms,
128-191 → 2 ms, 192-255 → 4 ms. -/
def quantum_spec_amended (priority : Nat) : Nat :=
  if priority ≤ 63 then 500000
  else if priority ≤ 127 then 1000000
  else if priority ≤ 191 then 2000000
  else 4000000

/-- Division with an explicit divide-by-zero check: every `/` of the embedded
timer code goes through this, so "never divides by zero" is "never returns
`none`". -/
def checkedDiv (a b : Nat) : Option Nat :=
  if b = 0 then none else some (a / b)

/-- `setup_preemption_timer` (arch/aarch64.rs:302-337), parameterised by the
`TIMER_FREQ` cell and the current `cntpct_el0` reading. When the stored
frequency is zero it returns the error string; otherwise
`ticks = freq * interval_us / 1_000_000` (u64 arithmetic, hence the product is
truncated) and the compare value `current + ticks` (also u64) is programmed
and returned. A failing `checkedDiv` is surfaced as the sentinel error
"division by zero" (no such path exists in the source, which is the point of
C9). -/
def setup_preemption_timer (timer_freq interval_us current : Nat) :
    Except String Nat :=
  if timer_freq = 0 then .error "Timer frequency not initialized"
  else
    match checkedDiv (timer_freq * interval_us % U64_MOD) 1000000 with
    | none => .error "division by zero"
    | some ticks => .ok ((current + ticks) % U64_MOD)

/-- `Instant::now` (time/mod.rs:119-152), parameterised by the `cntpct_el0`
and `cntfrq_el0` readings: when `freq > 0` the tick count is converted as
`cnt * 1_000_000_000 / freq` in u128 and truncated back to u64, otherwise the
instant is 0. The division is routed through `checkedDiv`; a result of `none`
would be a division by zero. -/
def Instant.now (cnt freq : Nat) : Option Nat :=
  if freq > 0 then
    match checkedDiv (cnt * 1000000000) freq with
    | none => none
    | some nanos => some (nanos % U64_MOD)
  else some 0

/-- Observable actions of `thread_trampoline` (kernel.rs:153-170) and of
`RunningRef::finish` (thread_new/mod.rs:591-598), in source order. -/
inductive TEvent where
  | unmaskIrq
  | reconstituteClosure
  | invokeClosure
  | storeFinished
  | storeJoinResult
  | wfeLoop
  deriving DecidableEq, Repr

/-- The action sequence of `thread_trampoline` (kernel.rs:153-170): it
reconstitutes the boxed closure from the raw pointer (`Box::from_raw`),
invokes it, and after the closure returns it enters the `wfe` loop. It
performs no interrupt-mask operation and no store to the thread's state byte
or join-result slot. -/
def thread_trampoline_events : List TEvent :=
  [.reconstituteClosure, .invokeClosure, .wfeLoop]

/-- The action sequence of `RunningRef::finish` (thread_new/mod.rs:591-598):
first `set_state(Finished)` is stored, then (under a `try_lock` that is
assumed to succeed here) the join-result slot is populated. -/
def finish_events : List TEvent :=
  [.storeFinished, .storeJoinResult]

/-- Observable actions of `Kernel::yield_now` (kernel.rs:238-283), in source
order. -/
inductive YEvent where
  | disableIrq
  | lockCurrent
  | takeCurrent
  | stopRunningEv
  | enqueueCurrent
  | pickNextEv
  | startRunningEv
  | publishCurrent
  | dropLock
  | enableIrq
  | contextSwitchEv
  deriving DecidableEq, Repr

/-- The action trace of `Kernel::yield_now` (kernel.rs:238-283) as a function
of the two branch conditions: whether the current-thread slot holds a thread
(`hasCurrent`, line 248) and whether `pick_next` returns a thread
(`pickSome`, line 257). Each event mirrors one statement of the source in
order; in the switch branch the source drops the lock (line 261), calls
`A::enable_interrupts()` (line 264) and only then `A::context_switch`
(line 269). -/
def yield_now_events (hasCurrent pickSome : Bool) : List YEvent :=
  [.disableIrq, .lockCurrent] ++
    (if hasCurrent then
      [.takeCurrent, .stopRunningEv, .enqueueCurrent, .pickNextEv] ++
        (if pickSome then
          [.startRunningEv, .publishCurrent, .dropLock, .enableIrq,
            .contextSwitchEv]
        else [.enableIrq])
    else [.dropLock, .enableIrq])

/-- One per-CPU run queue (`CpuRunQueue`, sched/rr.rs:26-39): four class
queues holding thread ids in FIFO order (the Michael-Scott queue pushes at
the tail and pops at the head) plus the `thread_count` load counter. -/
structure CpuQ where
  high_priority : List Nat
  normal_priority : List Nat
  low_priority : List Nat
  idle_priority : List Nat
  thread_count : Nat
  deriving DecidableEq, Repr

/-- The `RoundRobinScheduler` state (sched/rr.rs:15-23): the CPU count and
the per-CPU run queues (the statistics counters play no part in any claim and
are omitted). -/
structure SchedState where
  num_cpus : Nat
  run_queues : List CpuQ
  deriving DecidableEq, Repr

/-- Popping the head of a class queue (`LockFreeQueue::try_pop`,
sched/rr.rs:337-388, in its sequential reading: remove and return the element
behind the sentinel, i.e. the list head). -/
def queuePop (l : List Nat) : Option (Nat × List Nat) :=
  match l with
  | [] => none
  | x :: xs => some (x, xs)

/-- Select the field of a `CpuQ` for a priority class. -/
def CpuQ.classQueue (q : CpuQ) : PriorityLevel → List Nat
  | .High => q.high_priority
  | .Normal => q.normal_priority
  | .Low => q.low_priority
  | .Idle => q.idle_priority

/-- Replace the field of a `CpuQ` for a priority class. -/
def CpuQ.setClassQueue (q : CpuQ) : PriorityLevel → List Nat → CpuQ
  | .High, l => { q with high_priority := l }
  | .Normal, l => { q with normal_priority := l }
  | .Low, l => { q with low_priority := l }
  | .Idle, l => { q with idle_priority := l }

/-- Inner loop of `RoundRobinScheduler::select_cpu` (sched/rr.rs:83-96):
runs over the enumerated remaining queues keeping the index of the strictly
smallest `thread_count` seen so far (ties keep the earlier CPU). -/
def select_cpu_aux : List (Nat × CpuQ) → Nat → Nat → Nat
  | [], best, _ => best
  | (i, q) :: rest, best, minT =>
    if q.thread_count < minT then select_cpu_aux rest i q.thread_count
    else select_cpu_aux rest best minT

/-- `RoundRobinScheduler::select_cpu` (sched/rr.rs:83-96): the CPU with the
fewest queued threads, starting from CPU 0 and skipping index 0 in the scan
(the source indexes `run_queues[0]` unconditionally; an empty queue list is
unreachable there and maps to 0 here). -/
def select_cpu (s : SchedState) : Nat :=
  match s.run_queues with
  | [] => 0
  | q0 :: rest => select_cpu_aux (List.enumFrom 1 rest) 0 q0.thread_count

/-- `RoundRobinScheduler::enqueue` (sched/rr.rs:129-144): pick the least
loaded CPU, push the thread id at the tail of the class queue matching its
priority, and bump that CPU's `thread_count`. -/
def sched_enqueue (s : SchedState) (tid priority : Nat) : SchedState :=
  let cpu_id := select_cpu s
  match s.run_queues.get? cpu_id with
  | none => s
  | some q =>
    let lvl := priority_level priority
    let q' := q.setClassQueue lvl (q.classQueue lvl ++ [tid])
    let q2 := { q' with thread_count := q'.thread_count + 1 }
    { s with run_queues := s.run_queues.set cpu_id q2 }

/-- Loop body of `RoundRobinScheduler::try_steal_work` (sched/rr.rs:99-125)
over the precomputed victim order: skip the requesting CPU, otherwise pop the
victim's normal queue and then its low queue, decrementing the victim's
`thread_count` on success. -/
def try_steal_aux (s : SchedState) (requesting : Nat) :
    List Nat → Option (Nat × SchedState)
  | [] => none
  | v :: rest =>
    if v = requesting then try_steal_aux s requesting rest
    else
      match s.run_queues.get? v with
      | none => try_steal_aux s requesting rest
      | some q =>
        match queuePop q.normal_priority with
        | some (t, l) =>
          let q2 := { q with normal_priority := l, thread_count := q.thread_count - 1 }
          some (t, { s with run_queues := s.run_queues.set v q2 })
        | none =>
          match queuePop q.low_priority with
          | some (t, l) =>
            let q2 := { q with low_priority := l, thread_count := q.thread_count - 1 }
            some (t, { s with run_queues := s.run_queues.set v q2 })
          | none => try_steal_aux s requesting rest

/-- Victim visit order of `try_steal_work` (sched/rr.rs:101-104):
`(start_cpu + i) % num_cpus` for `i` in `0..num_cpus`, with
`start_cpu = (requesting + 1) % num_cpus`. -/
def steal_victims (num_cpus requesting : Nat) : List Nat :=
  (List.range num_cpus).map (fun i => ((requesting + 1) % num_cpus + i) % num_cpus)

/-- `RoundRobinScheduler::try_steal_work` (sched/rr.rs:99-125). -/
def try_steal_work (s : SchedState) (requesting : Nat) :
    Option (Nat × SchedState) :=
  try_steal_aux s requesting (steal_victims s.num_cpus requesting)

/-- `RoundRobinScheduler::pick_next` (sched/rr.rs:146-185): reject an
out-of-range CPU id, then pop the local high, normal, low and idle queues in
that order, and fall back to work stealing. Returns the popped thread id (if
any) together with the updated scheduler state. -/
def pick_next (s : SchedState) (cpu_id : Nat) : Option Nat × SchedState :=
  if cpu_id ≥ s.num_cpus then (none, s)
  else
    match s.run_queues.get? cpu_id with
    | none => (none, s)
    | some q =>
      match queuePop q.high_priority with
      | some (t, l) =>
        let q2 := { q with high_priority := l, thread_count := q.thread_count - 1 }
        (some t, { s with run_queues := s.run_queues.set cpu_id q2 })
      | none =>
      match queuePop q.normal_priority with
      | some (t, l) =>
        let q2 := { q with normal_priority := l, thread_count := q.thread_count - 1 }
        (some t, { s with run_queues := s.run_queues.set cpu_id q2 })
      | none =>
      match queuePop q.low_priority with
      | some (t, l) =>
        let q2 := { q with low_priority := l, thread_count := q.thread_count - 1 }
        (some t, { s with run_queues := s.run_queues.set cpu_id q2 })
      | none =>
      match queuePop q.idle_priority with
      | some (t, l) =>
        let q2 := { q with idle_priority := l, thread_count := q.thread_count - 1 }
        (some t, { s with run_queues := s.run_queues.set cpu_id q2 })
      | none =>
        match try_steal_work s cpu_id with
        | some (t, s') => (some t, s')
        | none => (none, s)

/-- `RoundRobinScheduler::on_tick` (sched/rr.rs:187-234), as a function of
the scheduler state, the current thread's priority and id, and the outcome of
`current.time_slice().should_preempt()` (a hardware-clock reading, passed in
as `expired`). Returns the `ReadyRef` handed back by the source — which is
the current thread itself (`prepare_preemption`) — when it decides to
preempt, `none` otherwise. The source consults `current.last_cpu()`, which is
the constant 0, and peeks the local queues of that CPU only. -/
def on_tick (s : SchedState) (cur_priority cur_id : Nat) (expired : Bool) :
    Option Nat :=
  if expired then
    let cpu_id := 0
    if cpu_id < s.num_cpus then
      match s.run_queues.get? cpu_id with
      | none => none
      | some q =>
        match priority_level cur_priority with
        | .Idle =>
          match (q.low_priority.head?).orElse (fun _ =>
            (q.normal_priority.head?).orElse (fun _ => q.high_priority.head?)) with
          | some _ => some cur_id
          | none => none
        | .Low =>
          match (q.normal_priority.head?).orElse (fun _ => q.high_priority.head?) with
          | some _ => some cur_id
          | none => none
        | .Normal =>
          match q.high_priority.head? with
          | some _ => some cur_id
          | none => none
        | .High => some cur_id
    else none
  else none

/-- `ThreadState` (thread_new/mod.rs:76-85). -/
inductive ThreadStateV where
  | Ready
  | Running
  | Blocked
  | Finished
  deriving DecidableEq, Repr

/-- The per-thread record the claims need (thread_new/mod.rs:98-142): the id,
the atomic state byte, the atomic priority and the join-result slot. The
context buffer is pinned for the thread's lifetime, so a context address is
identified with the id of the thread owning it. -/
structure ThreadRec where
  tid : Nat
  tstate : ThreadStateV
  tpriority : Nat
  join_result : Option Unit
  deriving DecidableEq, Repr

/-- The kernel facade state (kernel.rs:26-39) together with the thread table
and the two IRQ context pointers of arch/aarch64.rs:13-17. `irq_save_ctx` and
`irq_load_ctx` hold the id of the thread whose (pinned) context buffer they
point to, or `none` for null. -/
structure KState where
  threads : List ThreadRec
  sched : SchedState
  current : Option Nat
  irq_save_ctx : Option Nat
  irq_load_ctx : Option Nat
  initialized : Bool
  next_thread_id : Nat
  deriving DecidableEq, Repr

/-- Look a thread up in the table by id. -/
def KState.findThread (k : KState) (tid : Nat) : Option ThreadRec :=
  k.threads.find? (fun t => t.tid = tid)

/-- The state byte of a thread, as `Thread::state` reads it. -/
def KState.threadState (k : KState) (tid : Nat) : Option ThreadStateV :=
  (k.findThread tid).map (fun t => t.tstate)

/-- `Thread::set_state` (thread_new/mod.rs:224-226) on the thread table. -/
def KState.setThreadState (k : KState) (tid : Nat) (st : ThreadStateV) : KState :=
  { k with threads := k.threads.map (fun t => if t.tid = tid then { t with tstate := st } else t) }

/-- Priority of a thread as `ReadyRef::priority`/`RunningRef::priority` read
it (0 when the id is not in the table, which no reachable call does). -/
def KState.threadPriority (k : KState) (tid : Nat) : Nat :=
  ((k.findThread tid).map (fun t => t.tpriority)).getD 0

/-- `SpawnError` (kernel.rs:499-508). -/
inductive SpawnErrorV where
  | NotInitialized
  | OutOfMemory
  | TooManyThreads
  | InvalidStackSize
  deriving DecidableEq, Repr

/-- `Kernel::spawn` (kernel.rs:114-208). The outcome of
`stack_pool.allocate(StackSizeClass::Medium)` — which depends on the global
allocator, outside this model — is passed in as `alloc_ok`. The source first
checks `is_initialized`, then allocates the stack (returning `OutOfMemory` on
`None` before anything else happens), then mints the id with
`next_thread_id.fetch_add`, builds the `Thread` with state Ready and an empty
join slot, sets up the initial context and enqueues a `ReadyRef` in the
scheduler. Returns the spawned thread's id (standing for the `JoinHandle`)
and the new state. -/
def Kernel.spawn (k : KState) (alloc_ok : Bool) (priority : Nat) :
    Except SpawnErrorV Nat × KState :=
  if ¬k.initialized then (.error .NotInitialized, k)
  else if ¬alloc_ok then (.error .OutOfMemory, k)
  else
    let thread_id := k.next_thread_id
    let k1 := { k with next_thread_id := k.next_thread_id + 1 }
    let newRec : ThreadRec := ⟨thread_id, .Ready, priority, none⟩
    let k2 := { k1 with threads := k1.threads ++ [newRec] }
    let s := sched_enqueue k2.sched thread_id priority
    (.ok thread_id, { k2 with sched := s })

/-- `Kernel::start_first_thread` (kernel.rs:289-327): guard on `initialized`
and on an already-occupied current slot, `pick_next(0)`, `start_running` (the
state byte goes to Running), publish the thread in the current slot, and
`set_current_irq_context` (arch/aarch64.rs:413-416) which stores the thread's
context address into both `IRQ_SAVE_CTX` and `IRQ_LOAD_CTX`; finally the
context switch into the thread (which does not touch any modelled state). -/
def Kernel.start_first_thread (k : KState) : KState :=
  if ¬k.initialized then k
  else if k.current.isSome then k
  else
    match pick_next k.sched 0 with
    | (some next, s') =>
      let k1 := (k.setThreadState next .Running)
      { k1 with sched := s', current := some next, irq_save_ctx := some next, irq_load_ctx := some next }
    | (none, s') => { k with sched := s' }

/-- `Kernel::yield_now` (kernel.rs:238-283) as a state transformer (its event
order is `yield_now_events`): take the current thread, `stop_running` (state
byte to Ready), enqueue it, `pick_next(0)`; on `Some`, `start_running` the
picked thread and publish it as current, then context switch. The IRQ context
pointers are not touched on this path. -/
def Kernel.yield_now (k : KState) : KState :=
  if ¬k.initialized then k
  else
    match k.current with
    | none => k
    | some cur =>
      let k1 := k.setThreadState cur .Ready
      let s1 := sched_enqueue k1.sched cur (k1.threadPriority cur)
      match pick_next s1 0 with
      | (some next, s2) =>
        let k2 := (k1.setThreadState next .Running)
        { k2 with sched := s2, current := some next }
      | (none, s2) => { k1 with sched := s2, current := none }

/-- `Kernel::handle_irq_preemption` (kernel.rs:414-479): with the slot lock
held (`try_lock` succeeds in the single-CPU reading), always preempt
(`should_switch = true`): take the current thread, `stop_running`, enqueue,
`pick_next(0)`. On `Some`, `start_running` the picked thread, publish it as
current and store its context address into `IRQ_LOAD_CTX` and `IRQ_SAVE_CTX`
(arch/aarch64.rs:413-424); on `None` the guard is dropped with the slot left
empty and the pointers unchanged. -/
def Kernel.handle_irq_preemption (k : KState) : KState :=
  if ¬k.initialized then k
  else
    match k.current with
    | none => k
    | some cur =>
      let k1 := k.setThreadState cur .Ready
      let s1 := sched_enqueue k1.sched cur (k1.threadPriority cur)
      match pick_next s1 0 with
      | (some next, s2) =>
        let k2 := (k1.setThreadState next .Running)
        { k2 with sched := s2, current := some next, irq_load_ctx := some next, irq_save_ctx := some next }
      | (none, s2) => { k1 with sched := s2, current := none }

/-- The steal visit order as the claim words it: the other CPUs round-robin
starting after the requesting CPU and skipping it. -/
def victim_order (num_cpus cpu : Nat) : List Nat :=
  ((List.range num_cpus).map (fun i => (cpu + 1 + i) % num_cpus)).filter
    (fun v => v ≠ cpu)

/-- Whether a victim CPU has stealable work in the claim's sense: a non-empty
Normal or Low queue. -/
def victim_has_work (s : SchedState) (v : Nat) : Bool :=
  match s.run_queues.get? v with
  | none => false
  | some q => !q.normal_priority.isEmpty || !q.low_priority.isEmpty

/-- What stealing takes from a given victim, as the claim words it: the head
of the victim's Normal queue, or of its Low queue when the Normal one is
empty. -/
def steal_take (s : SchedState) (v : Nat) : Option Nat :=
  match s.run_queues.get? v with
  | none => none
  | some qv => qv.normal_priority.head? |>.orElse fun _ => qv.low_priority.head?

/-- The picked thread as claim C8 describes it, written from the claim's
words rather than the source: the head of the first non-empty local queue in
the order High, Normal, Low, Idle; if all four are empty, the first victim in
`victim_order` with stealable work is stolen from via `steal_take`. -/
def pick_next_claim (s : SchedState) (cpu : Nat) : Option Nat :=
  match s.run_queues.get? cpu with
  | none => none
  | some q =>
    q.high_priority.head? |>.orElse fun _ =>
    q.normal_priority.head? |>.orElse fun _ =>
    q.low_priority.head? |>.orElse fun _ =>
    q.idle_priority.head? |>.orElse fun _ =>
      match (victim_order s.num_cpus cpu).find? (victim_has_work s) with
      | none => none
      | some v => steal_take s v

/-- An empty single-CPU run-queue block. -/
def emptyQ : CpuQ := ⟨[], [], [], [], 0⟩

/-- A single-CPU scheduler with nothing queued. -/
def sEmpty1 : SchedState := { num_cpus := 1, run_queues := [emptyQ] }

/-- A single-CPU scheduler holding one High-class thread (id 9). -/
def sHigh1 : SchedState :=
  { num_cpus := 1, run_queues := [⟨[9], [], [], [], 1⟩] }

/-- A two-CPU scheduler: CPU 0 has nothing, CPU 1 has one Normal thread
(id 5) and one Low thread (id 6) queued. -/
def sSteal2 : SchedState :=
  { num_cpus := 2, run_queues := [emptyQ, ⟨[], [5], [6], [], 2⟩] }

/-- A kernel state as produced by initialising and spawning two Normal
threads (ids 1 and 2, priority 128): both Ready, both queued on CPU 0,
nothing running, IRQ context pointers null. -/
def kTwoThreads : KState :=
  { threads := [⟨1, .Ready, 128, none⟩, ⟨2, .Ready, 128, none⟩],
    sched := { num_cpus := 1, run_queues := [⟨[], [1, 2], [], [], 2⟩] },
    current := none, irq_save_ctx := none, irq_load_ctx := none,
    initialized := true, next_thread_id := 3 }

/-- C10: `ThreadId::new` is total and never yields a zero id: for the invalid
input 0 it silently returns the ThreadId 1, and for every non-zero `u64`
input `n` it returns the ThreadId with value `n`. -/
theorem threadId_new_total_nonzero (n : Nat) (hn : n < U64_MOD) :
    ThreadId.new n ≠ 0 ∧ (n = 0 → ThreadId.new n = 1) ∧
      (n ≠ 0 → ThreadId.new n = n) := by
  unfold ThreadId.new
  simp only [Nat.mod_eq_of_lt hn]
  by_cases h : n = 0
  · subst h; simp
  · simp [h]

/-- Witness for C10 at the inputs 0 and 5. -/
theorem threadId_new_total_nonzero_witness :
    (ThreadId.new 5 ≠ 0 ∧ (5 = 0 → ThreadId.new 5 = 1) ∧
      (5 ≠ 0 → ThreadId.new 5 = 5)) ∧ ThreadId.new 0 = 1 :=
  ⟨threadId_new_total_nonzero 5 (by norm_num [U64_MOD]),
   ((threadId_new_total_nonzero 0 (by norm_num [U64_MOD])).2.1 rfl)⟩

/-- C5 counterexample: at priority 128 — Normal class by the claim's own
bucketing, so the claim promises a 1 ms quantum — `calculate_quantum` returns
2 ms, refuting the claimed quantum table. -/
theorem calculate_quantum_claim_false :
    calculate_quantum 128 ≠ quantum_spec_claimed 128 ∧
      calculate_quantum 128 = 2000000 ∧ quantum_spec_claimed 128 = 1000000 := by
  decide

set_option maxRecDepth 4096 in
/-- C5 amended: for every priority `p` in 0-255, `TimeSlice::calculate_quantum`
assigns 0.5 ms for p in 0-63, 1 ms for p in 64-127, 2 ms for p in 128-191 and
4 ms for p in 192-255. -/
theorem calculate_quantum_table :
    ∀ p : Fin 256, calculate_quantum p.val = quantum_spec_amended p.val := by
  decide

/-- C9: with `CNTFRQ_EL0 = 0` (hence `TIMER_FREQ = 0`),
`setup_preemption_timer` returns an error; no execution of
`setup_preemption_timer` reaches a division by zero; and `Instant::now` never
divides by a zero frequency (its only division is guarded by `freq > 0`). -/
theorem timer_zero_freq_no_div_by_zero :
    (∀ us cur, setup_preemption_timer 0 us cur =
      .error "Timer frequency not initialized") ∧
    (∀ freq us cur, setup_preemption_timer freq us cur ≠
      .error "division by zero") ∧
    (∀ cnt freq, (Instant.now cnt freq).isSome) := by
  refine ⟨fun us cur => rfl, fun freq us cur => ?_, fun cnt freq => ?_⟩
  · unfold setup_preemption_timer checkedDiv
    by_cases h : freq = 0 <;> simp [h]
  · unfold Instant.now checkedDiv
    by_cases h : freq > 0
    · have hne : freq ≠ 0 := Nat.pos_iff_ne_zero.mp h
      simp [h, hne]
    · simp [h]

/-- C1 (the code's actual behaviour at the failing input): when a spawned
thread's entry function returns, `thread_trampoline` performs no store of the
Finished state and no store to the join-result slot — it parks in the WFE
loop, so the thread never reaches Finished and `join`/`try_join` can never
observe a populated result. Moreover even `RunningRef::finish` (which nothing
on this path calls) stores Finished strictly before populating the result
slot. -/
theorem trampoline_never_finishes :
    TEvent.storeFinished ∉ thread_trampoline_events ∧
    TEvent.storeJoinResult ∉ thread_trampoline_events ∧
    thread_trampoline_events.getLast? = some TEvent.wfeLoop ∧
    finish_events.indexOf TEvent.storeFinished <
      finish_events.indexOf TEvent.storeJoinResult := by
  decide

/-- C3 (the code's actual behaviour): on the yield path that switches
(`hasCurrent = true`, `pickSome = true`), `Kernel::yield_now` calls
`enable_interrupts` strictly after taking the current-thread slot lock and
strictly before issuing `context_switch` — the window the claim requires to
stay IRQ-masked is opened before the switch. -/
theorem yield_now_unmasks_before_switch :
    YEvent.enableIrq ∈ yield_now_events true true ∧
    YEvent.contextSwitchEv ∈ yield_now_events true true ∧
    (yield_now_events true true).indexOf YEvent.lockCurrent <
      (yield_now_events true true).indexOf YEvent.enableIrq ∧
    (yield_now_events true true).indexOf YEvent.enableIrq <
      (yield_now_events true true).indexOf YEvent.contextSwitchEv := by
  decide

/-- C4 counterexample: the first action of `thread_trampoline` is
reconstituting the boxed closure, not an IRQ unmask — indeed the trampoline
contains no unmask at all, refuting the claim at its very first step. -/
theorem trampoline_unmask_claim_false :
    thread_trampoline_events.head? ≠ some TEvent.unmaskIrq ∧
    TEvent.unmaskIrq ∉ thread_trampoline_events := by
  decide

/-- C4 amended: the trampoline installed by `spawn` never touches the IRQ
mask; on entry its first action is reconstituting the boxed closure from its
pointer, it then invokes the closure, and after the closure returns it enters
the WFE loop. -/
theorem trampoline_reconstitutes_first :
    thread_trampoline_events.head? = some TEvent.reconstituteClosure ∧
    TEvent.unmaskIrq ∉ thread_trampoline_events ∧
    thread_trampoline_events.indexOf TEvent.reconstituteClosure <
      thread_trampoline_events.indexOf TEvent.invokeClosure ∧
    thread_trampoline_events.indexOf TEvent.invokeClosure <
      thread_trampoline_events.indexOf TEvent.wfeLoop := by
  decide

/-- C6 (the code's actual behaviour at the failing input): start the first
thread (id 1) of `kTwoThreads`, then let it yield. `yield_now` switches to
thread 2 without republishing the IRQ context pointers, so afterwards
`IRQ_SAVE_CTX` and `IRQ_LOAD_CTX` still address thread 1's context buffer
while thread 1 is Ready (and thread 2 is the Running one) — the pointers
reference a non-Running thread's context. -/
theorem yield_now_leaves_stale_irq_ctx :
    (Kernel.yield_now (Kernel.start_first_thread kTwoThreads)).irq_save_ctx =
      some 1 ∧
    (Kernel.yield_now (Kernel.start_first_thread kTwoThreads)).irq_load_ctx =
      some 1 ∧
    (Kernel.yield_now (Kernel.start_first_thread kTwoThreads)).threadState 1 =
      some .Ready ∧
    (Kernel.yield_now (Kernel.start_first_thread kTwoThreads)).current =
      some 2 ∧
    (Kernel.yield_now (Kernel.start_first_thread kTwoThreads)).threadState 2 =
      some .Running := by
  decide

/-- C7: on an initialized kernel, when the stack pool cannot allocate a stack
`Kernel::spawn` returns `OutOfMemory` and the kernel state is left exactly as
it was: no thread record is created, nothing is enqueued, and the monotonic
thread-id counter is not advanced. -/
theorem spawn_oom_no_partial_state (k : KState) (p : Nat)
    (hinit : k.initialized = true) :
    Kernel.spawn k false p = (.error SpawnErrorV.OutOfMemory, k) := by
  unfold Kernel.spawn
  simp [hinit]

/-- Witness for C7 on the concrete state `kTwoThreads`. -/
theorem spawn_oom_no_partial_state_witness :
    Kernel.spawn kTwoThreads false 128 =
      (.error SpawnErrorV.OutOfMemory, kTwoThreads) :=
  spawn_oom_no_partial_state kTwoThreads 128 rfl

/-- C2 counterexample: a High-class current thread (priority 200, id 7) whose
quantum has expired, with every queue of the single-CPU scheduler empty — no
eligible ready thread exists at any priority, yet `on_tick` still decides to
preempt (it returns the current thread for re-enqueueing instead of `none`),
refuting the claimed "only when another High candidate is ready". -/
theorem on_tick_high_claim_false :
    on_tick sEmpty1 200 7 true = some 7 ∧ priority_level 200 = .High ∧
      sEmpty1.run_queues = [emptyQ] ∧ emptyQ.high_priority = [] ∧
      emptyQ.normal_priority = [] ∧ emptyQ.low_priority = [] ∧
      emptyQ.idle_priority = [] := by
  decide

/-- C2 amended: `on_tick` hands back the current thread (for re-enqueueing)
exactly when its time slice has expired and the class rule admits preemption —
for an Idle-class current any non-empty Low/Normal/High queue on CPU 0, for
Low any non-empty Normal/High queue, for Normal a non-empty High queue, and
for a High-class current unconditionally (no other High candidate is
required). -/
theorem on_tick_policy (s : SchedState) (q : CpuQ) (prio cid : Nat)
    (expired : Bool) (hn : 0 < s.num_cpus)
    (hq : s.run_queues.get? 0 = some q) :
    (on_tick s prio cid expired = some cid ↔
      (expired = true ∧
        (match priority_level prio with
         | .Idle =>
           q.low_priority ≠ [] ∨ q.normal_priority ≠ [] ∨ q.high_priority ≠ []
         | .Low => q.normal_priority ≠ [] ∨ q.high_priority ≠ []
         | .Normal => q.high_priority ≠ []
         | .High => True))) ∧
    (∀ r, on_tick s prio cid expired = some r → r = cid) := by
  unfold on_tick
  cases expired with
  | false => simp
  | true =>
    simp only [if_pos hn, hq]
    cases hl : priority_level prio <;>
      simp only [hl] <;>
      cases q.low_priority <;> cases q.normal_priority <;>
      cases q.high_priority <;>
      simp [Option.orElse]

/-- Witness for C2 amended: a Normal-class current thread (priority 100)
whose slice expired is preempted when the single High-class thread of
`sHigh1` is ready. -/
theorem on_tick_policy_witness : on_tick sHigh1 100 7 true = some 7 := by
  have h := on_tick_policy sHigh1 ⟨[9], [], [], [], 1⟩ 100 7 true
    (by decide) (by decide)
  exact h.1.mpr ⟨rfl, by show ([9] : List Nat) ≠ []; decide⟩

/-- Helper for C8: the thread returned by the steal loop body over an
arbitrary victim list is what `steal_take` yields at the first eligible
victim of that list. -/
theorem try_steal_aux_value (s : SchedState) (req : Nat) :
    ∀ l : List Nat,
      (try_steal_aux s req l).map Prod.fst =
        match (l.filter (fun v => v ≠ req)).find? (victim_has_work s) with
        | none => none
        | some v => steal_take s v := by
  intro l
  induction l with
  | nil => rfl
  | cons v rest ih =>
    rw [List.filter_cons]
    by_cases hv : v = req
    · subst hv
      rw [if_neg (by simp)]
      unfold try_steal_aux
      rw [if_pos rfl]
      exact ih
    · rw [if_pos (by simp [hv])]
      unfold try_steal_aux
      rw [if_neg hv]
      rcases hg : s.run_queues.get? v with _ | qv
      · have hg2 : s.run_queues[v]? = none := by
          rw [← List.get?_eq_getElem?]
          exact hg
        have hw : victim_has_work s v = false := by
          simp [victim_has_work, hg2]
        rw [List.find?_cons_of_neg _ (by simp [hw])]
        exact ih
      · have hg2 : s.run_queues[v]? = some qv := by
          rw [← List.get?_eq_getElem?]
          exact hg
        rcases hnq : qv.normal_priority with _ | ⟨x, xs⟩
        · rcases hlq : qv.low_priority with _ | ⟨y, ys⟩
          · have hw : victim_has_work s v = false := by
              simp [victim_has_work, hg2, hnq, hlq]
            rw [List.find?_cons_of_neg _ (by simp [hw])]
            simp only [hnq, hlq, queuePop]
            exact ih
          · have hw : victim_has_work s v = true := by
              simp [victim_has_work, hg2, hlq]
            rw [List.find?_cons_of_pos _ (by simp [hw])]
            simp [hnq, hlq, queuePop, steal_take, hg2]
        · have hw : victim_has_work s v = true := by
            simp [victim_has_work, hg2, hnq]
          rw [List.find?_cons_of_pos _ (by simp [hw])]
          simp [hnq, queuePop, steal_take, hg2]

/-- Helper for C8: dropping the requesting CPU from the source's raw victim
enumeration gives exactly the claim's visit order. -/
theorem steal_victims_filter (n cpu : Nat) :
    (steal_victims n cpu).filter (fun v => v ≠ cpu) = victim_order n cpu := by
  unfold steal_victims victim_order
  simp only [Nat.mod_add_mod]

/-- Helper for C8: the thread stolen by `try_steal_work` is what `steal_take`
yields at the first victim of the claim's visit order with stealable work. -/
theorem try_steal_work_value (s : SchedState) (cpu : Nat) :
    (try_steal_work s cpu).map Prod.fst =
      match (victim_order s.num_cpus cpu).find? (victim_has_work s) with
      | none => none
      | some v => steal_take s v := by
  unfold try_steal_work
  rw [try_steal_aux_value, steal_victims_filter]

/-- Helper for C8: every CPU of the claim's visit order is a valid CPU other
than the requester. -/
theorem victim_order_mem_bounds (n cpu v : Nat) (hn : 0 < n)
    (hv : v ∈ victim_order n cpu) : v < n ∧ v ≠ cpu := by
  unfold victim_order at hv
  rcases List.mem_filter.mp hv with ⟨hmap, hne⟩
  rcases List.mem_map.mp hmap with ⟨i, _, rfl⟩
  exact ⟨Nat.mod_lt _ hn, by simpa using hne⟩

/-- Helper for C8: every valid CPU other than the requester occurs in the
claim's visit order. -/
theorem mem_victim_order (n cpu v : Nat) (hn : 0 < n) (hv : v < n)
    (hne : v ≠ cpu) : v ∈ victim_order n cpu := by
  unfold victim_order
  refine List.mem_filter.mpr ⟨?_, by simpa⟩
  refine List.mem_map.mpr
    ⟨(v + n - (cpu + 1) % n) % n, List.mem_range.mpr (Nat.mod_lt _ hn), ?_⟩
  have hc : (cpu + 1) % n < n := Nat.mod_lt _ hn
  rw [Nat.add_mod_mod]
  set c := (cpu + 1) % n with hcdef
  obtain ⟨d, hd⟩ : ∃ d, cpu + 1 = n * d + c :=
    ⟨(cpu + 1) / n, by rw [hcdef, Nat.div_add_mod]⟩
  rw [hd]
  have hle : c ≤ v + n := le_trans (Nat.le_of_lt hc) (Nat.le_add_left n v)
  have harith : n * d + c + (v + n - c) = n * (d + 1) + v := by
    rw [Nat.mul_add, Nat.mul_one]
    omega
  rw [harith, Nat.mul_add_mod, Nat.mod_eq_of_lt hv]

/-- Helper for C8: a victim with stealable work always yields a thread. -/
theorem steal_take_isSome_of_work (s : SchedState) (v : Nat)
    (hw : victim_has_work s v = true) : (steal_take s v).isSome = true := by
  unfold victim_has_work at hw
  unfold steal_take
  rcases hg : s.run_queues.get? v with _ | qv
  · rw [hg] at hw
    simp at hw
  · rw [hg] at hw
    cases hnq : qv.normal_priority <;> cases hlq : qv.low_priority <;>
      simp_all

/-- C8: for every valid CPU id, `pick_next` removes and returns the head of
the first non-empty local queue in the order High, Normal, Low, Idle; only if
all four are empty does it steal, visiting the other CPUs round-robin
starting after itself and skipping itself, taking each victim's Normal queue
before its Low queue; and it returns `none` exactly when the four local
queues and every other CPU's Normal and Low queues are all empty. -/
theorem pick_next_follows_claim (s : SchedState) (cpu : Nat) (q : CpuQ)
    (hcpu : cpu < s.num_cpus) (hlen : s.run_queues.length = s.num_cpus)
    (hq : s.run_queues.get? cpu = some q) :
    (pick_next s cpu).1 = pick_next_claim s cpu ∧
    ((pick_next s cpu).1 = none ↔
      q.high_priority = [] ∧ q.normal_priority = [] ∧ q.low_priority = [] ∧
        q.idle_priority = [] ∧
        ∀ v qv, v < s.num_cpus → v ≠ cpu → s.run_queues.get? v = some qv →
          qv.normal_priority = [] ∧ qv.low_priority = []) := by
  have hn : 0 < s.num_cpus := Nat.lt_of_le_of_lt (Nat.zero_le cpu) hcpu
  have hge : ¬ cpu ≥ s.num_cpus := not_le.mpr hcpu
  unfold pick_next pick_next_claim
  rw [if_neg hge, hq]
  rcases hh : q.high_priority with _ | ⟨x, xs⟩
  swap
  · constructor <;> simp [hh, queuePop]
  rcases hno : q.normal_priority with _ | ⟨x, xs⟩
  swap
  · constructor <;> simp [hh, hno, queuePop]
  rcases hlo : q.low_priority with _ | ⟨x, xs⟩
  swap
  · constructor <;> simp [hh, hno, hlo, queuePop]
  rcases hid : q.idle_priority with _ | ⟨x, xs⟩
  swap
  · constructor <;> simp [hh, hno, hlo, hid, queuePop]
  -- all four local queues are empty: the steal path
  have hv := try_steal_work_value s cpu
  rcases hsw : try_steal_work s cpu with _ | ⟨t, s2⟩
  · rw [hsw] at hv
    have hv2 : (none : Option Nat) =
        match (victim_order s.num_cpus cpu).find? (victim_has_work s) with
        | none => none
        | some v => steal_take s v := by simpa using hv
    have hfind :
        (victim_order s.num_cpus cpu).find? (victim_has_work s) = none := by
      rcases hf : (victim_order s.num_cpus cpu).find? (victim_has_work s)
        with _ | v
      · rfl
      · rw [hf] at hv2
        have hred : (none : Option Nat) = steal_take s v := hv2
        have hwv : victim_has_work s v = true := List.find?_some hf
        have hsome := steal_take_isSome_of_work s v hwv
        rw [← hred] at hsome
        simp at hsome
    constructor
    · simp [hh, hno, hlo, hid, queuePop, hfind]
    · simp only [hh, hno, hlo, hid, queuePop]
      constructor
      · intro _
        refine ⟨trivial, trivial, trivial, trivial, ?_⟩
        intro v qv hvlt hvne hgv
        have hmem : v ∈ victim_order s.num_cpus cpu :=
          mem_victim_order _ _ _ hn hvlt hvne
        have hnw := List.find?_eq_none.mp hfind v hmem
        unfold victim_has_work at hnw
        rw [hgv] at hnw
        simpa [List.isEmpty_iff] using hnw
      · intro _
        trivial
  · rw [hsw] at hv
    have hv2 : some t =
        match (victim_order s.num_cpus cpu).find? (victim_has_work s) with
        | none => none
        | some v => steal_take s v := by simpa using hv
    constructor
    · simp only [hh, hno, hlo, hid, queuePop]
      simpa using hv2
    · simp only [hh, hno, hlo, hid, queuePop]
      constructor
      · intro hc
        simp at hc
      · rintro ⟨-, -, -, -, hall⟩
        rcases hf : (victim_order s.num_cpus cpu).find? (victim_has_work s)
          with _ | v
        · rw [hf] at hv2
          have hred : some t = (none : Option Nat) := hv2
          simp at hred
        · have hwv : victim_has_work s v = true := List.find?_some hf
          have hmem := List.mem_of_find?_eq_some hf
          obtain ⟨hvlt, hvne⟩ := victim_order_mem_bounds _ _ _ hn hmem
          have hvlen : v < s.run_queues.length := by omega
          obtain ⟨qv, hgv⟩ : ∃ qv, s.run_queues.get? v = some qv :=
            ⟨_, List.get?_eq_get hvlen⟩
          obtain ⟨he1, he2⟩ := hall v qv hvlt hvne hgv
          unfold victim_has_work at hwv
          rw [hgv] at hwv
          simp [he1, he2] at hwv

/-- Witness for C8 on `sSteal2`: CPU 0's local queues are all empty, so the
pick steals from CPU 1 (Normal queue first). -/
theorem pick_next_follows_claim_witness :
    (pick_next sSteal2 0).1 = pick_next_claim sSteal2 0 :=
  (pick_next_follows_claim sSteal2 0 emptyQ (by decide) (by decide)
    (by decide)).1
